import Mathlib

/-!
Verification of the model-finder scoring engine and query pipeline.

This file is a shallow embedding of the core logic of the repository:

* `src/data/models.ts` — the data model (`Lab`, `Provider`, `ModelProvider`,
  `Scores`, `Model`), the scoring engine (`normalize`, `overallScore`,
  `blendedCost`, `bestCost`, `bestSpeed`, `costRange`, `speedRange`) and the
  reference tables (`labs`, `providers`, `models`).
* `src/app/page.tsx` — the query pipeline: the filter (`filtered`), the
  three-state sort toggle (`toggleSort`), the sort stage (`sorted`) and the
  free-text search stage (`searched`).

Numbers are embedded as exact rationals (JavaScript numbers are IEEE doubles;
all specified properties concern the ideal arithmetic the code writes down).
JavaScript `Math.round` is embedded as `jsRound` (floor of `x + 1/2`, the
round-half-up rule `Math.round` implements). `Array.prototype.sort` (stable
in ECMAScript 2019 and later) is embedded as the stable `List.mergeSort`.
`String.prototype.localeCompare` is locale dependent, so the sort stage is
parameterized over an arbitrary comparison `lc : String → String → Int`;
no theorem below depends on its collation details.  `String.prototype.toLowerCase`
is embedded as `String.toLower` (all catalog strings are ASCII) and
`String.prototype.includes` as `strIncludes`.

Presentation-only `Model` fields that no specified property reads
(`contextWindow`, `maxOutputTokens`, `knowledgeCutoff`, `parameters`,
`thinking`, `releaseUrl`, `expectingMoreBenchmarks`) are omitted from the
embedding; every field consumed by the scoring engine or the query pipeline
is carried.
-/

namespace ModelFinder

/-- A creating organization (src/data/models.ts, interface Lab). -/
structure Lab where
  id : String
  name : String
  url : String
deriving DecidableEq, Repr

/-- An API host (src/data/models.ts, interface Provider). -/
structure Provider where
  id : String
  name : String
  url : String
deriving DecidableEq, Repr

/-- A (model, provider) hosting offer (src/data/models.ts, interface ModelProvider). -/
structure ModelProvider where
  providerId : String
  costPer1MInput : ℚ
  costPer1MOutput : ℚ
  costPer1MCachedInput : Option ℚ := none
  tokensPerSecond : ℚ
deriving DecidableEq, Repr

/-- Weighted average dollars per 1M tokens, 3:1 input:output
(src/data/models.ts, `blendedCost`). -/
def blendedCost (p : ModelProvider) : ℚ :=
  (p.costPer1MInput * 3 + p.costPer1MOutput) / 4

/-- The sparsely populated bag of raw benchmark results
(src/data/models.ts, interface Scores).  `reasoning` is the only
required field; the source type marks every other field optional. -/
structure Scores where
  coding : Option ℚ := none
  codingLive : Option ℚ := none
  reasoning : ℚ
  reasoningHle : Option ℚ := none
  math : Option ℚ := none
  mathBenchmark : Option String := none
  general : Option ℚ := none
  multimodal : Option ℚ := none
  elo : Option ℚ := none
deriving DecidableEq, Repr

/-- The central entity (src/data/models.ts, interface Model); fields not read
by the scoring engine or the query pipeline are omitted (see header). -/
structure Model where
  id : String
  name : String
  labId : String
  supportsImages : Bool
  openWeights : Bool
  releaseDate : String
  scores : Scores
  providers : List ModelProvider
deriving DecidableEq, Repr

/-- Fixed floor/ceiling goalposts per benchmark
(src/data/models.ts, `GOALPOSTS`). -/
structure Goalpost where
  floor : ℚ
  ceiling : ℚ
deriving DecidableEq, Repr

/-- The benchmark keys that appear in the `GOALPOSTS` table. -/
inductive BenchKey where
  | coding
  | codingLive
  | reasoning
  | reasoningHle
  | math
  | general
deriving DecidableEq, Repr

/-- The `GOALPOSTS` table of src/data/models.ts. -/
def GOALPOSTS : BenchKey → Goalpost
  | .coding => ⟨0, 80⟩
  | .codingLive => ⟨0, 80⟩
  | .reasoning => ⟨25, 100⟩
  | .reasoningHle => ⟨0, 100⟩
  | .math => ⟨0, 100⟩
  | .general => ⟨10, 100⟩

/-- Anchored min-max normalization (src/data/models.ts, `normalize`):
`Math.max(0, Math.min(1, (raw - gp.floor) / (gp.ceiling - gp.floor)))`. -/
def normalize (raw : ℚ) (key : BenchKey) : ℚ :=
  max 0 (min 1 ((raw - (GOALPOSTS key).floor) / ((GOALPOSTS key).ceiling - (GOALPOSTS key).floor)))

/-- JavaScript `Math.round`: round half up, i.e. the floor of `q + 1/2`. -/
def jsRound (q : ℚ) : ℤ :=
  ⌊q + 1 / 2⌋

/-- Contribution of one optional benchmark field to the component list:
one normalized value when present, nothing when absent. -/
def optPart (o : Option ℚ) (k : BenchKey) : List ℚ :=
  match o with
  | some v => [normalize v k]
  | none => []

/-- The coding component of `overallScore`: prefer `coding` (SWE-Bench) and
fall back to `codingLive` only when `coding` is absent
(src/data/models.ts, lines 87-92). -/
def codingPart (s : Scores) : List ℚ :=
  match s.coding with
  | some c => [normalize c .coding]
  | none => optPart s.codingLive .codingLive

/-- The list `parts` built by `overallScore` (src/data/models.ts, lines 81-98),
in source push order: reasoning, general, coding (with fallback), math,
reasoningHle.  `multimodal` and `elo` are never pushed. -/
def scoreParts (s : Scores) : List ℚ :=
  [normalize s.reasoning .reasoning]
    ++ optPart s.general .general
    ++ codingPart s
    ++ optPart s.math .math
    ++ optPart s.reasoningHle .reasoningHle

/-- Composite intelligence score (src/data/models.ts, `overallScore`):
`Math.round((parts.reduce((a, b) => a + b, 0) / parts.length) * 100)`. -/
def overallScore (m : Model) : ℤ :=
  jsRound ((scoreParts m.scores).sum / ((scoreParts m.scores).length : ℚ) * 100)

/-- Best (lowest) blended cost across providers
(src/data/models.ts, `bestCost`, `Math.min(...)` over the mapped costs).
`Math.min` of an empty spread is `Infinity`; the data-model invariant forbids
an empty `providers` list, so the `[]` branch is unreachable on valid input
and every theorem about an empty-spread value assumes `providers ≠ []`. -/
def bestCost (m : Model) : ℚ :=
  match m.providers.map blendedCost with
  | [] => 0
  | c :: cs => cs.foldl min c

/-- Best (highest) speed across providers (src/data/models.ts, `bestSpeed`). -/
def bestSpeed (m : Model) : ℚ :=
  match m.providers.map (fun p => p.tokensPerSecond) with
  | [] => 0
  | s :: ss => ss.foldl max s

/-- Cost range [min, max] across providers (src/data/models.ts, `costRange`). -/
def costRange (m : Model) : ℚ × ℚ :=
  match m.providers.map blendedCost with
  | [] => (0, 0)
  | c :: cs => (cs.foldl min c, cs.foldl max c)

/-- Speed range [min, max] across providers (src/data/models.ts, `speedRange`). -/
def speedRange (m : Model) : ℚ × ℚ :=
  match m.providers.map (fun p => p.tokensPerSecond) with
  | [] => (0, 0)
  | s :: ss => (ss.foldl min s, ss.foldl max s)

/-- The `labs` reference table (src/data/models.ts, lines 147-161). -/
def labs : List Lab := [
  ⟨"anthropic", "Anthropic", "https://www.anthropic.com"⟩,
  ⟨"openai", "OpenAI", "https://openai.com"⟩,
  ⟨"google", "Google", "https://deepmind.google"⟩,
  ⟨"meta", "Meta", "https://ai.meta.com"⟩,
  ⟨"deepseek", "DeepSeek", "https://www.deepseek.com"⟩,
  ⟨"alibaba", "Alibaba", "https://www.alibabacloud.com/en/solutions/generative-ai"⟩,
  ⟨"mistral", "Mistral", "https://mistral.ai"⟩,
  ⟨"cohere", "Cohere", "https://cohere.com"⟩,
  ⟨"microsoft", "Microsoft", "https://www.microsoft.com/en-us/research/ai/"⟩,
  ⟨"xai", "xAI", "https://x.ai"⟩,
  ⟨"moonshot", "Moonshot AI", "https://www.moonshot.ai"⟩,
  ⟨"zhipu", "Zhipu AI", "https://z.ai"⟩,
  ⟨"minimax", "MiniMax", "https://www.minimax.io"⟩]

/-- The `providers` reference table (src/data/models.ts, lines 163-178). -/
def providers : List Provider := [
  ⟨"anthropic", "Anthropic", "https://docs.anthropic.com/en/docs/about-claude/models"⟩,
  ⟨"openai", "OpenAI", "https://platform.openai.com/docs/models"⟩,
  ⟨"google", "Google", "https://ai.google.dev/gemini-api/docs/models"⟩,
  ⟨"together", "Together AI", "https://www.together.ai/models"⟩,
  ⟨"fireworks", "Fireworks", "https://fireworks.ai/models"⟩,
  ⟨"bedrock", "AWS Bedrock", "https://aws.amazon.com/bedrock/"⟩,
  ⟨"azure", "Azure", "https://learn.microsoft.com/en-us/azure/ai-services/openai/concepts/models"⟩,
  ⟨"deepseek", "DeepSeek", "https://platform.deepseek.com/api-docs"⟩,
  ⟨"mistral", "Mistral", "https://docs.mistral.ai/getting-started/models/"⟩,
  ⟨"cohere", "Cohere", "https://docs.cohere.com/v2/docs/models"⟩,
  ⟨"vertex", "Google Vertex", "https://cloud.google.com/vertex-ai/generative-ai/docs/learn/models"⟩,
  ⟨"xai", "xAI", "https://docs.x.ai/developers/models"⟩,
  ⟨"groq", "Groq", "https://groq.com/models"⟩,
  ⟨"cerebras", "Cerebras", "https://www.cerebras.ai/inference"⟩]

/-- Linear lookup by id (src/data/models.ts, `getProvider`). -/
def getProvider (id : String) : Option Provider :=
  providers.find? (fun p => p.id == id)

/-- Linear lookup by id (src/data/models.ts, `getLab`). -/
def getLab (id : String) : Option Lab :=
  labs.find? (fun l => l.id == id)

/-- Catalog entry gpt-4o (src/data/models.ts), named here so witnesses can
evaluate the scoring engine on a real record. -/
def gpt4o : Model :=
  { id := "gpt-4o", name := "GPT-4o", labId := "openai",
    supportsImages := true, openWeights := false, releaseDate := "2024-05-13",
    scores := { coding := some 33, reasoning := 51, reasoningHle := some 3,
                math := some 6, mathBenchmark := some "AIME 2025",
                general := some 73, multimodal := some 54, elo := some 1346 },
    providers := [⟨"openai", 2.50, 10.00, some 1.25, 134⟩,
                  ⟨"azure", 2.50, 10.00, some 1.25, 170⟩] }

/-- Catalog entry gpt-4.1 (src/data/models.ts); it carries both `coding` and
`codingLive`, which the coding-fallback witnesses need. -/
def gpt41 : Model :=
  { id := "gpt-4.1", name := "GPT-4.1", labId := "openai",
    supportsImages := true, openWeights := false, releaseDate := "2025-04-14",
    scores := { coding := some 55, codingLive := some 46, reasoning := 67,
                reasoningHle := some 5, math := some 35,
                mathBenchmark := some "AIME 2025", general := some 81,
                elo := some 1413 },
    providers := [⟨"openai", 2.00, 8.00, some 0.50, 67⟩,
                  ⟨"azure", 2.00, 8.00, some 0.50, 104⟩] }

/-- The `models` catalog (src/data/models.ts, lines 182-920), restricted to
the embedded fields. -/
def models : List Model := [
  gpt4o,
  { id := "gpt-4o-mini", name := "GPT-4o mini", labId := "openai",
    supportsImages := true, openWeights := false, releaseDate := "2024-07-18",
    scores := { codingLive := some 23, reasoning := 43, reasoningHle := some 4,
                math := some 15, mathBenchmark := some "AIME 2025",
                general := some 65, elo := some 1318 },
    providers := [⟨"openai", 0.15, 0.60, some 0.075, 54⟩,
                  ⟨"azure", 0.15, 0.60, some 0.075, 54⟩] },
  gpt41,
  { id := "gpt-4.1-mini", name := "GPT-4.1 mini", labId := "openai",
    supportsImages := true, openWeights := false, releaseDate := "2025-04-14",
    scores := { codingLive := some 48, reasoning := 66, reasoningHle := some 5,
                math := some 46, mathBenchmark := some "AIME 2025",
                general := some 78, elo := some 1382 },
    providers := [⟨"openai", 0.40, 1.60, some 0.10, 70⟩,
                  ⟨"azure", 0.40, 1.60, some 0.10, 78⟩] },
  { id := "gpt-4.1-nano", name := "GPT-4.1 nano", labId := "openai",
    supportsImages := true, openWeights := false, releaseDate := "2025-04-14",
    scores := { codingLive := some 33, reasoning := 51, reasoningHle := some 4,
                math := some 24, mathBenchmark := some "AIME 2025",
                general := some 66, elo := some 1322 },
    providers := [⟨"openai", 0.10, 0.40, some 0.025, 98⟩,
                  ⟨"azure", 0.10, 0.40, some 0.025, 142⟩] },
  { id := "o1", name := "o1", labId := "openai",
    supportsImages := true, openWeights := false, releaseDate := "2024-09-12",
    scores := { coding := some 49, codingLive := some 68, reasoning := 75,
                reasoningHle := some 8, general := some 84, elo := some 1402 },
    providers := [⟨"openai", 15.00, 60.00, some 7.50, 160⟩,
                  ⟨"azure", 15.00, 60.00, some 7.50, 174⟩] },
  { id := "o3", name := "o3", labId := "openai",
    supportsImages := true, openWeights := false, releaseDate := "2025-04-16",
    scores := { coding := some 69, codingLive := some 81, reasoning := 83,
                reasoningHle := some 20, math := some 88,
                mathBenchmark := some "AIME 2025", general := some 85,
                elo := some 1432 },
    providers := [⟨"openai", 2.00, 8.00, some 0.50, 109⟩,
                  ⟨"azure", 2.00, 8.00, some 0.50, 141⟩] },
  { id := "o4-mini", name := "o4-mini", labId := "openai",
    supportsImages := true, openWeights := false, releaseDate := "2025-04-16",
    scores := { coding := some 68, codingLive := some 86, reasoning := 78,
                reasoningHle := some 18, math := some 91,
                mathBenchmark := some "AIME 2025", general := some 83 },
    providers := [⟨"openai", 1.10, 4.40, some 0.275, 116⟩,
                  ⟨"azure", 1.10, 4.40, some 0.275, 134⟩] },
  { id := "gpt-5", name := "GPT-5", labId := "openai",
    supportsImages := true, openWeights := false, releaseDate := "2025-08-07",
    scores := { coding := some 75, codingLive := some 85, reasoning := 85,
                reasoningHle := some 27, math := some 94,
                mathBenchmark := some "AIME 2025", general := some 87,
                elo := some 1434 },
    providers := [⟨"openai", 1.25, 10.00, some 0.125, 89⟩,
                  ⟨"azure", 1.25, 10.00, some 0.125, 98⟩] },
  { id := "gpt-5-mini", name := "GPT-5 mini", labId := "openai",
    supportsImages := true, openWeights := false, releaseDate := "2025-08-07",
    scores := { codingLive := some 84, reasoning := 83, reasoningHle := some 20,
                math := some 91, mathBenchmark := some "AIME 2025",
                general := some 84 },
    providers := [⟨"openai", 0.25, 2.00, some 0.025, 74⟩,
                  ⟨"azure", 0.25, 2.00, some 0.025, 75⟩] },
  { id := "gpt-5-nano", name := "GPT-5 nano", labId := "openai",
    supportsImages := true, openWeights := false, releaseDate := "2025-08-07",
    scores := { codingLive := some 79, reasoning := 68, reasoningHle := some 8,
                math := some 84, mathBenchmark := some "AIME 2025",
                general := some 78, elo := some 1338 },
    providers := [⟨"openai", 0.05, 0.40, some 0.005, 128⟩,
                  ⟨"azure", 0.05, 0.40, some 0.005, 131⟩] },
  { id := "gpt-5.1", name := "GPT-5.1", labId := "openai",
    supportsImages := true, openWeights := false, releaseDate := "2025-11-12",
    scores := { coding := some 76, codingLive := some 87, reasoning := 87,
                reasoningHle := some 27, math := some 94,
                mathBenchmark := some "AIME 2025", general := some 87,
                elo := some 1458 },
    providers := [⟨"openai", 1.25, 10.00, some 0.125, 124⟩,
                  ⟨"azure", 1.25, 10.00, some 0.125, 136⟩] },
  { id := "gpt-5.2", name := "GPT-5.2", labId := "openai",
    supportsImages := true, openWeights := false, releaseDate := "2025-12-11",
    scores := { coding := some 80, codingLive := some 89, reasoning := 90,
                reasoningHle := some 35, math := some 99,
                mathBenchmark := some "AIME 2025", general := some 87,
                elo := some 1441 },
    providers := [⟨"openai", 1.75, 14.00, some 0.175, 87⟩,
                  ⟨"azure", 1.75, 14.00, some 0.175, 88⟩] },
  { id := "gpt-oss-120b", name := "GPT-OSS 120B", labId := "openai",
    supportsImages := false, openWeights := true, releaseDate := "2025-08-05",
    scores := { coding := some 62, codingLive := some 88, reasoning := 78,
                reasoningHle := some 19, math := some 93,
                mathBenchmark := some "AIME 2025", general := some 81,
                elo := some 1354 },
    providers := [⟨"fireworks", 0.15, 0.60, none, 765⟩,
                  ⟨"cerebras", 0.35, 0.75, none, 2951⟩,
                  ⟨"groq", 0.15, 0.60, none, 500⟩] },
  { id := "claude-sonnet-4-5", name := "Claude Sonnet 4.5", labId := "anthropic",
    supportsImages := true, openWeights := false, releaseDate := "2025-09-29",
    scores := { coding := some 77, codingLive := some 71, reasoning := 83,
                reasoningHle := some 17, math := some 88,
                mathBenchmark := some "AIME 2025", general := some 88 },
    providers := [⟨"anthropic", 3.00, 15.00, some 0.30, 85⟩,
                  ⟨"bedrock", 3.00, 15.00, some 0.30, 103⟩,
                  ⟨"vertex", 3.00, 15.00, some 0.30, 49⟩] },
  { id := "claude-haiku-4-5", name := "Claude Haiku 4.5", labId := "anthropic",
    supportsImages := true, openWeights := false, releaseDate := "2025-10-15",
    scores := { coding := some 73, codingLive := some 51, reasoning := 65,
                reasoningHle := some 4, math := some 39,
                mathBenchmark := some "AIME 2025", general := some 80 },
    providers := [⟨"anthropic", 1.00, 5.00, some 0.10, 109⟩,
                  ⟨"bedrock", 1.00, 5.00, some 0.10, 95⟩,
                  ⟨"vertex", 1.00, 5.00, some 0.10, 87⟩] },
  { id := "claude-opus-4-5", name := "Claude Opus 4.5", labId := "anthropic",
    supportsImages := true, openWeights := false, releaseDate := "2025-11-24",
    scores := { coding := some 81, codingLive := some 87, reasoning := 87,
                reasoningHle := some 28, math := some 91,
                mathBenchmark := some "AIME 2025", general := some 90 },
    providers := [⟨"anthropic", 5.00, 25.00, some 0.50, 88⟩,
                  ⟨"bedrock", 5.00, 25.00, some 0.50, 82⟩,
                  ⟨"vertex", 5.00, 25.00, some 0.50, 75⟩] },
  { id := "claude-opus-4-6", name := "Claude Opus 4.6", labId := "anthropic",
    supportsImages := true, openWeights := false, releaseDate := "2026-02-05",
    scores := { coding := some 81, reasoning := 90, reasoningHle := some 37,
                math := some 100, mathBenchmark := some "AIME 2025",
                multimodal := some 74 },
    providers := [⟨"anthropic", 5.00, 25.00, some 0.50, 73⟩,
                  ⟨"bedrock", 5.00, 25.00, some 0.50, 67⟩,
                  ⟨"vertex", 5.00, 25.00, some 0.50, 56⟩] },
  { id := "claude-sonnet-4-6", name := "Claude Sonnet 4.6", labId := "anthropic",
    supportsImages := true, openWeights := false, releaseDate := "2026-02-17",
    scores := { coding := some 80, reasoning := 88, reasoningHle := some 30,
                general := some 89, multimodal := some 75 },
    providers := [⟨"anthropic", 3.00, 15.00, some 0.30, 57⟩,
                  ⟨"bedrock", 3.00, 15.00, some 0.30, 64⟩,
                  ⟨"vertex", 3.00, 15.00, some 0.30, 51⟩] },
  { id := "gemini-2.5-pro", name := "Gemini 2.5 Pro", labId := "google",
    supportsImages := true, openWeights := false, releaseDate := "2025-06-05",
    scores := { coding := some 64, codingLive := some 80, reasoning := 84,
                reasoningHle := some 21, math := some 88,
                mathBenchmark := some "AIME 2025", general := some 86,
                elo := some 1465 },
    providers := [⟨"google", 1.25, 10.00, some 0.125, 159⟩,
                  ⟨"vertex", 1.25, 10.00, some 0.125, 139⟩] },
  { id := "gemini-2.5-flash", name := "Gemini 2.5 Flash", labId := "google",
    supportsImages := true, openWeights := false, releaseDate := "2025-05-20",
    scores := { codingLive := some 70, reasoning := 79, reasoningHle := some 11,
                math := some 73, mathBenchmark := some "AIME 2025",
                general := some 83 },
    providers := [⟨"google", 0.30, 2.50, some 0.03, 282⟩,
                  ⟨"vertex", 0.30, 2.50, some 0.03, 223⟩] },
  { id := "gemini-3-pro", name := "Gemini 3 Pro", labId := "google",
    supportsImages := true, openWeights := false, releaseDate := "2025-11-18",
    scores := { coding := some 76, codingLive := some 92, reasoning := 91,
                reasoningHle := some 37, math := some 96,
                mathBenchmark := some "AIME 2025", general := some 90,
                elo := some 1492 },
    providers := [⟨"google", 2.00, 12.00, some 0.20, 127⟩,
                  ⟨"vertex", 2.00, 12.00, some 0.20, 142⟩] },
  { id := "gemini-3-flash", name := "Gemini 3 Flash", labId := "google",
    supportsImages := true, openWeights := false, releaseDate := "2025-12-17",
    scores := { coding := some 78, codingLive := some 91, reasoning := 90,
                reasoningHle := some 35, math := some 97,
                mathBenchmark := some "AIME 2025", general := some 89 },
    providers := [⟨"google", 0.50, 3.00, some 0.05, 215⟩,
                  ⟨"vertex", 0.50, 3.00, some 0.05, 209⟩] },
  { id := "gemini-3.1-pro", name := "Gemini 3.1 Pro", labId := "google",
    supportsImages := true, openWeights := false, releaseDate := "2026-02-19",
    scores := { coding := some 81, reasoning := 94, reasoningHle := some 45 },
    providers := [⟨"google", 2.00, 12.00, some 0.20, 104⟩,
                  ⟨"vertex", 2.00, 12.00, some 0.20, 130⟩] },
  { id := "grok-4", name := "Grok 4", labId := "xai",
    supportsImages := true, openWeights := false, releaseDate := "2025-07-10",
    scores := { codingLive := some 82, reasoning := 88, reasoningHle := some 24,
                math := some 93, mathBenchmark := some "AIME 2025",
                general := some 87 },
    providers := [⟨"xai", 3.00, 15.00, some 0.75, 36⟩] },
  { id := "grok-4.1-fast", name := "Grok 4.1 Fast", labId := "xai",
    supportsImages := true, openWeights := false, releaseDate := "2025-11-19",
    scores := { codingLive := some 82, reasoning := 85, reasoningHle := some 18,
                math := some 89, mathBenchmark := some "AIME 2025",
                general := some 85 },
    providers := [⟨"xai", 0.20, 0.50, some 0.05, 150⟩] },
  { id := "magistral-medium-2509", name := "Magistral Medium", labId := "mistral",
    supportsImages := true, openWeights := false, releaseDate := "2025-09-18",
    scores := { codingLive := some 75, reasoning := 74, reasoningHle := some 10,
                math := some 82, mathBenchmark := some "AIME 2025",
                general := some 82 },
    providers := [⟨"mistral", 2.00, 5.00, none, 29⟩] },
  { id := "mistral-large-2512", name := "Mistral Large 3", labId := "mistral",
    supportsImages := true, openWeights := true, releaseDate := "2025-12-02",
    scores := { codingLive := some 47, reasoning := 68, reasoningHle := some 4,
                math := some 38, mathBenchmark := some "AIME 2025",
                general := some 81, elo := some 1418 },
    providers := [⟨"mistral", 0.50, 1.50, none, 56⟩,
                  ⟨"bedrock", 0.50, 1.50, none, 147⟩] },
  { id := "deepseek-v3", name := "DeepSeek V3", labId := "deepseek",
    supportsImages := false, openWeights := true, releaseDate := "2024-12-26",
    scores := { codingLive := some 36, reasoning := 56, reasoningHle := some 4,
                math := some 26, mathBenchmark := some "AIME 2025",
                general := some 75 },
    providers := [⟨"together", 0.40, 0.89, none, 75⟩,
                  ⟨"bedrock", 0.58, 1.68, none, 75⟩,
                  ⟨"vertex", 0.56, 1.68, none, 120⟩] },
  { id := "deepseek-r1-0528", name := "DeepSeek R1", labId := "deepseek",
    supportsImages := false, openWeights := true, releaseDate := "2025-05-28",
    scores := { codingLive := some 77, reasoning := 81, reasoningHle := some 15,
                math := some 76, mathBenchmark := some "AIME 2025",
                general := some 85 },
    providers := [⟨"together", 3.00, 7.00, none, 306⟩,
                  ⟨"bedrock", 1.35, 5.40, none, 306⟩,
                  ⟨"vertex", 1.35, 5.50, none, 120⟩] },
  { id := "deepseek-v3.1", name := "DeepSeek V3.1", labId := "deepseek",
    supportsImages := false, openWeights := true, releaseDate := "2025-08-21",
    scores := { coding := some 66, codingLive := some 78, reasoning := 78,
                reasoningHle := some 13, math := some 90,
                mathBenchmark := some "AIME 2025", general := some 85 },
    providers := [⟨"fireworks", 0.56, 1.68, some 0.28, 347⟩,
                  ⟨"together", 0.60, 1.70, none, 278⟩] },
  { id := "deepseek-chat", name := "DeepSeek V3.2", labId := "deepseek",
    supportsImages := false, openWeights := true, releaseDate := "2025-12-01",
    scores := { coding := some 73, codingLive := some 86, reasoning := 84,
                reasoningHle := some 22, math := some 94,
                mathBenchmark := some "AIME 2026", general := some 86 },
    providers := [⟨"deepseek", 0.28, 0.42, some 0.028, 50⟩,
                  ⟨"fireworks", 0.56, 1.68, some 0.28, 219⟩] },
  { id := "llama-4-maverick", name := "Llama 4 Maverick", labId := "meta",
    supportsImages := true, openWeights := true, releaseDate := "2025-04-05",
    scores := { codingLive := some 40, reasoning := 67, reasoningHle := some 5,
                math := some 19, mathBenchmark := some "AIME 2025",
                general := some 81, elo := some 1292 },
    providers := [⟨"together", 0.27, 0.85, none, 126⟩,
                  ⟨"fireworks", 0.22, 0.88, none, 145⟩,
                  ⟨"groq", 0.20, 0.60, none, 434⟩,
                  ⟨"azure", 0.27, 0.85, none, 127⟩,
                  ⟨"bedrock", 0.24, 0.97, none, 213⟩,
                  ⟨"vertex", 0.20, 0.60, none, 152⟩] },
  { id := "qwen3.5-397b", name := "Qwen3.5 397B", labId := "alibaba",
    supportsImages := true, openWeights := true, releaseDate := "2026-02-16",
    scores := { coding := some 76, codingLive := some 84, reasoning := 89,
                reasoningHle := some 27, math := some 91,
                mathBenchmark := some "AIME 2026", general := some 88,
                elo := some 1450 },
    providers := [⟨"together", 0.60, 3.60, none, 74⟩] },
  { id := "kimi-k2.5", name := "Kimi K2.5", labId := "moonshot",
    supportsImages := true, openWeights := true, releaseDate := "2026-01-27",
    scores := { coding := some 77, codingLive := some 85, reasoning := 88,
                reasoningHle := some 29, math := some 96,
                mathBenchmark := some "AIME 2025", general := some 87,
                elo := some 1449 },
    providers := [⟨"together", 0.50, 2.80, none, 45⟩,
                  ⟨"fireworks", 0.60, 3.00, some 0.10, 345⟩] },
  { id := "glm-4-7", name := "GLM-4.7", labId := "zhipu",
    supportsImages := false, openWeights := true, releaseDate := "2025-12-22",
    scores := { coding := some 74, codingLive := some 89, reasoning := 86,
                reasoningHle := some 25, math := some 95,
                mathBenchmark := some "AIME 2025", general := some 86,
                elo := some 1441 },
    providers := [⟨"fireworks", 0.60, 2.20, none, 136⟩] },
  { id := "glm-5", name := "GLM-5", labId := "zhipu",
    supportsImages := false, openWeights := true, releaseDate := "2026-02-11",
    scores := { coding := some 78, reasoning := 82, reasoningHle := some 27,
                math := some 93, mathBenchmark := some "AIME 2026" },
    providers := [⟨"together", 1.00, 3.20, none, 55⟩,
                  ⟨"fireworks", 1.00, 3.20, some 0.20, 266⟩] },
  { id := "minimax-m2.5", name := "MiniMax M2.5", labId := "minimax",
    supportsImages := false, openWeights := true, releaseDate := "2026-02-12",
    scores := { coding := some 80, codingLive := some 65, reasoning := 85,
                reasoningHle := some 19, math := some 86,
                mathBenchmark := some "AIME 2025", general := some 77 },
    providers := [⟨"together", 0.30, 1.20, none, 58⟩,
                  ⟨"fireworks", 0.30, 1.20, some 0.03, 273⟩] },
  { id := "command-a-03-2025", name := "Command A", labId := "cohere",
    supportsImages := false, openWeights := true, releaseDate := "2025-03-13",
    scores := { codingLive := some 29, reasoning := 53, reasoningHle := some 5,
                math := some 13, mathBenchmark := some "AIME 2025",
                general := some 71, elo := some 1353 },
    providers := [⟨"cohere", 2.50, 10.00, none, 49⟩,
                  ⟨"azure", 2.50, 10.00, none, 49⟩] },
  { id := "command-r-plus-04-2024", name := "Command R+", labId := "cohere",
    supportsImages := false, openWeights := true, releaseDate := "2024-04-04",
    scores := { codingLive := some 12, reasoning := 32, reasoningHle := some 5,
                general := some 43 },
    providers := [⟨"cohere", 3.00, 15.00, none, 59⟩,
                  ⟨"azure", 2.50, 10.00, none, 59⟩,
                  ⟨"bedrock", 3.00, 15.00, none, 59⟩] }]

/-- Tests whether `sub` occurs as a contiguous run inside a character list;
the embedding of JavaScript `String.prototype.includes` (empty needle always
matches, as in JavaScript). -/
def listIncludes (sub : List Char) : List Char → Bool
  | [] => sub.isEmpty
  | c :: cs => List.isPrefixOf sub (c :: cs) || listIncludes sub cs

/-- String containment: `strIncludes s sub` embeds `s.includes(sub)`. -/
def strIncludes (s sub : String) : Bool :=
  listIncludes sub.data s.data

/-- The filter criteria held in page state (src/app/page.tsx, lines 14-17):
`minScore`, `minSpeedVal`, `requireVision`, `requireOpenWeights`.  These four
are the entire filter state; the page holds no cost or provider criterion. -/
structure FilterState where
  minScore : ℚ
  minSpeedVal : ℚ
  requireVision : Bool
  requireOpenWeights : Bool
deriving DecidableEq, Repr

/-- The filter predicate (src/app/page.tsx, lines 94-100):
`overallScore(m) >= minScore && bestSpeed(m) >= minSpeedVal &&
(!requireVision || m.supportsImages) && (!requireOpenWeights || m.openWeights)`. -/
def keepModel (st : FilterState) (m : Model) : Bool :=
  decide ((overallScore m : ℚ) ≥ st.minScore)
    && decide (bestSpeed m ≥ st.minSpeedVal)
    && (!st.requireVision || m.supportsImages)
    && (!st.requireOpenWeights || m.openWeights)

/-- The `filtered` list (src/app/page.tsx, lines 94-100). -/
def filtered (st : FilterState) (catalog : List Model) : List Model :=
  catalog.filter (keepModel st)

/-- The sortable columns (src/app/page.tsx, line 22). -/
inductive SortCol where
  | model
  | creator
  | score
  | cost
  | speed
  | released
deriving DecidableEq, Repr

/-- The sort state (src/app/page.tsx, lines 22-23): an optional active column
and an ascending flag. -/
structure SortState where
  sortCol : Option SortCol
  sortAsc : Bool
deriving DecidableEq, Repr

/-- The `toggleSort` handler (src/app/page.tsx, lines 102-114).  Clicking the
active column flips to ascending, then resets the column to null (the
ascending flag is left as it was); clicking a different column activates it
descending. -/
def toggleSort (col : SortCol) (st : SortState) : SortState :=
  if st.sortCol = some col then
    if st.sortAsc then { st with sortCol := none }
    else { st with sortAsc := true }
  else
    { sortCol := some col, sortAsc := false }

/-- The resolved lab display name used by the creator comparator and the
search stage: `getLab(m.labId)?.name ?? ""`. -/
def labName (m : Model) : String :=
  ((getLab m.labId).map Lab.name).getD ""

/-- The per-column comparator value `cmp` (src/app/page.tsx, lines 118-126),
parameterized over the locale comparison `lc` used for `localeCompare`. -/
def sortCmp (lc : String → String → Int) (col : SortCol) (a b : Model) : ℚ :=
  match col with
  | .model => (lc a.name b.name : ℚ)
  | .creator => (lc (labName a) (labName b) : ℚ)
  | .score => ((overallScore a - overallScore b : ℤ) : ℚ)
  | .cost => bestCost a - bestCost b
  | .speed => bestSpeed a - bestSpeed b
  | .released => (lc a.releaseDate b.releaseDate : ℚ)

/-- The `sorted` list (src/app/page.tsx, lines 116-129).  With an active
column the comparator returns `sortAsc ? cmp : -cmp`; with no active column
the default comparator is `overallScore(b) - overallScore(a)` (descending by
score).  A stable sort models `Array.prototype.sort`. -/
def sorted (lc : String → String → Int) (st : SortState) (l : List Model) : List Model :=
  match st.sortCol with
  | some col =>
      l.mergeSort (fun a b =>
        decide ((if st.sortAsc then sortCmp lc col a b else -(sortCmp lc col a b)) ≤ 0))
  | none =>
      l.mergeSort (fun a b => decide ((overallScore b - overallScore a : ℤ) ≤ 0))

/-- The search predicate (src/app/page.tsx, lines 132-135): case-insensitive
substring match of the query against the model name or the resolved lab name. -/
def matchesSearch (q : String) (m : Model) : Bool :=
  strIncludes m.name.toLower q.toLower || strIncludes (labName m).toLower q.toLower

/-- The `searched` list (src/app/page.tsx, lines 131-136): the sorted list is
filtered by the query only when the query is nonempty (a JavaScript truthiness
test on the string). -/
def searched (q : String) (l : List Model) : List Model :=
  if q = "" then l else l.filter (matchesSearch q)

/-- The whole displayed pipeline: filter, then sort, then search. -/
def displayed (lc : String → String → Int) (st : FilterState) (sst : SortState)
    (q : String) (catalog : List Model) : List Model :=
  searched q (sorted lc sst (filtered st catalog))

/-- Spec-side restatement of the composite component set, written from the
specification wording: the included set always contains the normalized
reasoning score; contains normalized general, math and reasoningHle exactly
when each is present; contains at most one coding component, preferring
`coding` and using `codingLive` only when `coding` is absent; and never
contains multimodal or elo.  Compared against `scoreParts` below. -/
def specComponents (m : Model) : List ℚ :=
  [normalize m.scores.reasoning .reasoning]
    ++ (m.scores.general.map (fun g => normalize g .general)).toList
    ++ (match m.scores.coding, m.scores.codingLive with
        | some c, _ => some (normalize c .coding)
        | none, some cl => some (normalize cl .codingLive)
        | none, none => none).toList
    ++ (m.scores.math.map (fun v => normalize v .math)).toList
    ++ (m.scores.reasoningHle.map (fun v => normalize v .reasoningHle)).toList

/-- Spec-side predicate: `x` is the minimum of the list `l`. -/
def IsMinOf (x : ℚ) (l : List ℚ) : Prop :=
  x ∈ l ∧ ∀ y ∈ l, x ≤ y

/-- Spec-side predicate: `x` is the maximum of the list `l`. -/
def IsMaxOf (x : ℚ) (l : List ℚ) : Prop :=
  x ∈ l ∧ ∀ y ∈ l, y ≤ x

/-- Replace the `multimodal` raw score of a model. -/
def setMultimodal (m : Model) (x : Option ℚ) : Model :=
  { m with scores := { m.scores with multimodal := x } }

/-- Replace the `elo` rating of a model. -/
def setElo (m : Model) (x : Option ℚ) : Model :=
  { m with scores := { m.scores with elo := x } }

/-- Replace the `reasoning` raw score of a model. -/
def setReasoning (m : Model) (v : ℚ) : Model :=
  { m with scores := { m.scores with reasoning := v } }

/-- Replace the `coding` raw score of a model. -/
def setCoding (m : Model) (x : Option ℚ) : Model :=
  { m with scores := { m.scores with coding := x } }

/-- Replace the `codingLive` raw score of a model. -/
def setCodingLive (m : Model) (x : Option ℚ) : Model :=
  { m with scores := { m.scores with codingLive := x } }

/-- Replace the `math` raw score of a model. -/
def setMath (m : Model) (x : Option ℚ) : Model :=
  { m with scores := { m.scores with math := x } }

/-- Replace the `general` raw score of a model. -/
def setGeneral (m : Model) (x : Option ℚ) : Model :=
  { m with scores := { m.scores with general := x } }

/-- Replace the `reasoningHle` raw score of a model. -/
def setReasoningHle (m : Model) (x : Option ℚ) : Model :=
  { m with scores := { m.scores with reasoningHle := x } }

/-- Replace the provider list of a model. -/
def setProviders (m : Model) (ps : List ModelProvider) : Model :=
  { m with providers := ps }

/-- A trivial locale comparison used to instantiate the `lc` parameter in
concrete test inputs whose sort columns never compare strings. -/
def lcZero : String → String → Int :=
  fun _ _ => 0

/-- A synthetic model with a perfect reasoning score, an astronomically
expensive single provider and a provider id matching no provider-table entry;
used to exhibit the absence of cost and provider criteria in the filter. -/
def expensiveModel : Model :=
  { id := "expensive", name := "Expensive", labId := "nobody",
    supportsImages := false, openWeights := false, releaseDate := "2026-01-01",
    scores := { reasoning := 100 },
    providers := [⟨"nowhere", 1000000, 1000000, none, 50⟩] }

/-- Synthetic model A for the sort-toggle counterexample: overall score 0,
blended cost 1. -/
def sortDemoA : Model :=
  { id := "A", name := "A", labId := "nobody",
    supportsImages := false, openWeights := false, releaseDate := "2026-01-01",
    scores := { reasoning := 25 },
    providers := [⟨"p", 1, 1, none, 10⟩] }

/-- Synthetic model B for the sort-toggle counterexample: overall score 100,
blended cost 5. -/
def sortDemoB : Model :=
  { id := "B", name := "B", labId := "nobody",
    supportsImages := false, openWeights := false, releaseDate := "2026-01-01",
    scores := { reasoning := 100 },
    providers := [⟨"p", 5, 5, none, 10⟩] }

/-! ### Basic facts about normalization and the component list -/

theorem normalize_nonneg (raw : ℚ) (k : BenchKey) : 0 ≤ normalize raw k :=
  le_max_left 0 _

theorem normalize_le_one (raw : ℚ) (k : BenchKey) : normalize raw k ≤ 1 :=
  max_le zero_le_one (min_le_left 1 _)

theorem goalpost_sub_pos (k : BenchKey) : 0 < (GOALPOSTS k).ceiling - (GOALPOSTS k).floor := by
  cases k <;> norm_num [GOALPOSTS]

theorem normalize_mono (k : BenchKey) {r r' : ℚ} (h : r ≤ r') :
    normalize r k ≤ normalize r' k := by
  unfold normalize
  refine max_le_max (le_refl 0) (min_le_min (le_refl 1) ?_)
  exact (div_le_div_iff_of_pos_right (goalpost_sub_pos k)).mpr (by linarith)

theorem mem_optPart {x : ℚ} {o : Option ℚ} {k : BenchKey} (h : x ∈ optPart o k) :
    0 ≤ x ∧ x ≤ 1 := by
  cases o with
  | none => simp [optPart] at h
  | some v =>
    simp [optPart] at h
    exact h ▸ ⟨normalize_nonneg v k, normalize_le_one v k⟩

theorem mem_codingPart {x : ℚ} {s : Scores} (h : x ∈ codingPart s) : 0 ≤ x ∧ x ≤ 1 := by
  unfold codingPart at h
  cases hco : s.coding with
  | some c =>
    rw [hco] at h
    simp at h
    exact h ▸ ⟨normalize_nonneg c .coding, normalize_le_one c .coding⟩
  | none =>
    rw [hco] at h
    exact mem_optPart h

theorem mem_scoreParts {x : ℚ} {s : Scores} (h : x ∈ scoreParts s) : 0 ≤ x ∧ x ≤ 1 := by
  unfold scoreParts at h
  simp only [List.mem_append, List.mem_singleton] at h
  rcases h with ((((h | h) | h) | h) | h)
  · exact h ▸ ⟨normalize_nonneg _ _, normalize_le_one _ _⟩
  · exact mem_optPart h
  · exact mem_codingPart h
  · exact mem_optPart h
  · exact mem_optPart h

theorem scoreParts_ne_nil (s : Scores) : scoreParts s ≠ [] := by
  simp [scoreParts]

theorem scoreParts_length_pos (s : Scores) : 0 < (scoreParts s).length :=
  List.length_pos.mpr (scoreParts_ne_nil s)

/-! ### Bounds on the composite score -/

theorem list_sum_le_length (l : List ℚ) (h : ∀ x ∈ l, x ≤ 1) : l.sum ≤ (l.length : ℚ) := by
  induction l with
  | nil => simp
  | cons a t ih =>
    have ha := h a (by simp)
    have ht := ih (fun x hx => h x (by simp [hx]))
    simp only [List.sum_cons, List.length_cons]
    push_cast
    linarith

theorem jsRound_nonneg {q : ℚ} (h : 0 ≤ q) : 0 ≤ jsRound q := by
  unfold jsRound
  exact Int.le_floor.mpr (by push_cast; linarith)

theorem jsRound_le_100 {q : ℚ} (h : q ≤ 100) : jsRound q ≤ 100 := by
  unfold jsRound
  have : ⌊q + 1 / 2⌋ < 101 := Int.floor_lt.mpr (by push_cast; linarith)
  omega

theorem jsRound_mono {q r : ℚ} (h : q ≤ r) : jsRound q ≤ jsRound r :=
  Int.floor_le_floor (by linarith)

theorem overallScore_nonneg (m : Model) : 0 ≤ overallScore m := by
  unfold overallScore
  apply jsRound_nonneg
  have h0 : 0 ≤ (scoreParts m.scores).sum :=
    List.sum_nonneg (fun x hx => (mem_scoreParts hx).1)
  have hl : (0:ℚ) < ((scoreParts m.scores).length : ℚ) := by
    exact_mod_cast scoreParts_length_pos m.scores
  positivity

theorem overallScore_le_100 (m : Model) : overallScore m ≤ 100 := by
  unfold overallScore
  apply jsRound_le_100
  have hl : (0:ℚ) < ((scoreParts m.scores).length : ℚ) := by
    exact_mod_cast scoreParts_length_pos m.scores
  have hs : (scoreParts m.scores).sum ≤ ((scoreParts m.scores).length : ℚ) :=
    list_sum_le_length _ (fun x hx => (mem_scoreParts hx).2)
  have hmean : (scoreParts m.scores).sum / ((scoreParts m.scores).length : ℚ) ≤ 1 :=
    (div_le_one hl).mpr hs
  linarith

/-! ### Monotonicity machinery -/

theorem sum_le_sum_forall2 {l₁ l₂ : List ℚ} (h : List.Forall₂ (· ≤ ·) l₁ l₂) :
    l₁.sum ≤ l₂.sum := by
  induction h with
  | nil => exact le_refl 0
  | cons hab _ ih =>
    simp only [List.sum_cons]
    exact add_le_add hab ih

theorem forall2_le_refl (l : List ℚ) : List.Forall₂ (· ≤ ·) l l :=
  List.forall₂_same.mpr (fun x _ => le_refl x)

theorem forall2_append {r : ℚ → ℚ → Prop} {l₁ l₂ u₁ u₂ : List ℚ}
    (h : List.Forall₂ r l₁ l₂) (h' : List.Forall₂ r u₁ u₂) :
    List.Forall₂ r (l₁ ++ u₁) (l₂ ++ u₂) := by
  induction h with
  | nil => exact h'
  | cons hab _ ih => exact List.Forall₂.cons hab ih

theorem overallScore_le_of_forall2 {m m' : Model}
    (h : List.Forall₂ (· ≤ ·) (scoreParts m.scores) (scoreParts m'.scores)) :
    overallScore m ≤ overallScore m' := by
  unfold overallScore
  apply jsRound_mono
  have hlen := h.length_eq
  have hl : (0:ℚ) < ((scoreParts m'.scores).length : ℚ) := by
    exact_mod_cast scoreParts_length_pos m'.scores
  have hsum := sum_le_sum_forall2 h
  rw [hlen]
  have : (scoreParts m.scores).sum / ((scoreParts m'.scores).length : ℚ)
      ≤ (scoreParts m'.scores).sum / ((scoreParts m'.scores).length : ℚ) :=
    (div_le_div_iff_of_pos_right hl).mpr hsum
  nlinarith

theorem forall2_scoreParts_reasoning (s : Scores) {v w : ℚ} (h : v ≤ w) :
    List.Forall₂ (· ≤ ·) (scoreParts { s with reasoning := v })
      (scoreParts { s with reasoning := w }) := by
  rcases s with ⟨co, cl, re, hle, ma, mb, ge, mu, el⟩
  unfold scoreParts
  refine forall2_append (forall2_append (forall2_append (forall2_append ?_ ?_) ?_) ?_) ?_
  · exact List.Forall₂.cons (normalize_mono _ h) List.Forall₂.nil
  · exact forall2_le_refl _
  · exact forall2_le_refl _
  · exact forall2_le_refl _
  · exact forall2_le_refl _

theorem forall2_scoreParts_coding (s : Scores) {v w : ℚ} (h : v ≤ w) :
    List.Forall₂ (· ≤ ·) (scoreParts { s with coding := some v })
      (scoreParts { s with coding := some w }) := by
  rcases s with ⟨co, cl, re, hle, ma, mb, ge, mu, el⟩
  unfold scoreParts codingPart
  refine forall2_append (forall2_append (forall2_append (forall2_append ?_ ?_) ?_) ?_) ?_
  · exact forall2_le_refl _
  · exact forall2_le_refl _
  · exact List.Forall₂.cons (normalize_mono _ h) List.Forall₂.nil
  · exact forall2_le_refl _
  · exact forall2_le_refl _

theorem forall2_scoreParts_codingLive (s : Scores) {v w : ℚ} (h : v ≤ w) :
    List.Forall₂ (· ≤ ·) (scoreParts { s with codingLive := some v })
      (scoreParts { s with codingLive := some w }) := by
  rcases s with ⟨co, cl, re, hle, ma, mb, ge, mu, el⟩
  unfold scoreParts codingPart
  cases co with
  | some c =>
    refine forall2_append (forall2_append (forall2_append (forall2_append ?_ ?_) ?_) ?_) ?_
    · exact forall2_le_refl _
    · exact forall2_le_refl _
    · exact forall2_le_refl _
    · exact forall2_le_refl _
    · exact forall2_le_refl _
  | none =>
    refine forall2_append (forall2_append (forall2_append (forall2_append ?_ ?_) ?_) ?_) ?_
    · exact forall2_le_refl _
    · exact forall2_le_refl _
    · exact List.Forall₂.cons (normalize_mono _ h) List.Forall₂.nil
    · exact forall2_le_refl _
    · exact forall2_le_refl _

theorem forall2_scoreParts_math (s : Scores) {v w : ℚ} (h : v ≤ w) :
    List.Forall₂ (· ≤ ·) (scoreParts { s with math := some v })
      (scoreParts { s with math := some w }) := by
  rcases s with ⟨co, cl, re, hle, ma, mb, ge, mu, el⟩
  unfold scoreParts
  refine forall2_append (forall2_append (forall2_append (forall2_append ?_ ?_) ?_) ?_) ?_
  · exact forall2_le_refl _
  · exact forall2_le_refl _
  · exact forall2_le_refl _
  · exact List.Forall₂.cons (normalize_mono _ h) List.Forall₂.nil
  · exact forall2_le_refl _

theorem forall2_scoreParts_general (s : Scores) {v w : ℚ} (h : v ≤ w) :
    List.Forall₂ (· ≤ ·) (scoreParts { s with general := some v })
      (scoreParts { s with general := some w }) := by
  rcases s with ⟨co, cl, re, hle, ma, mb, ge, mu, el⟩
  unfold scoreParts
  refine forall2_append (forall2_append (forall2_append (forall2_append ?_ ?_) ?_) ?_) ?_
  · exact forall2_le_refl _
  · exact List.Forall₂.cons (normalize_mono _ h) List.Forall₂.nil
  · exact forall2_le_refl _
  · exact forall2_le_refl _
  · exact forall2_le_refl _

theorem forall2_scoreParts_reasoningHle (s : Scores) {v w : ℚ} (h : v ≤ w) :
    List.Forall₂ (· ≤ ·) (scoreParts { s with reasoningHle := some v })
      (scoreParts { s with reasoningHle := some w }) := by
  rcases s with ⟨co, cl, re, hle, ma, mb, ge, mu, el⟩
  unfold scoreParts
  refine forall2_append (forall2_append (forall2_append (forall2_append ?_ ?_) ?_) ?_) ?_
  · exact forall2_le_refl _
  · exact forall2_le_refl _
  · exact forall2_le_refl _
  · exact forall2_le_refl _
  · exact List.Forall₂.cons (normalize_mono _ h) List.Forall₂.nil

/-! ### Folded minima and maxima -/

theorem foldl_min_mem (xs : List ℚ) (x : ℚ) : xs.foldl min x ∈ x :: xs := by
  induction xs generalizing x with
  | nil => simp
  | cons a t ih =>
    have := ih (min x a)
    rcases min_choice x a with hm | hm <;>
      simp only [List.foldl_cons] <;>
      rcases (List.mem_cons).mp this with hh | hh <;>
      simp [hh, hm] at * <;> simp_all

theorem foldl_min_le (xs : List ℚ) (x : ℚ) : ∀ y ∈ x :: xs, xs.foldl min x ≤ y := by
  induction xs generalizing x with
  | nil => intro y hy; simp at hy; simp [hy]
  | cons a t ih =>
    intro y hy
    have hstep := ih (min x a)
    simp only [List.foldl_cons]
    rcases (List.mem_cons).mp hy with h1 | hy'
    · subst h1
      exact le_trans (hstep _ (List.mem_cons_self _ _)) (min_le_left _ _)
    · rcases (List.mem_cons).mp hy' with h2 | h3
      · subst h2
        exact le_trans (hstep _ (List.mem_cons_self _ _)) (min_le_right _ _)
      · exact hstep y (by simp [h3])

theorem foldl_max_mem (xs : List ℚ) (x : ℚ) : xs.foldl max x ∈ x :: xs := by
  induction xs generalizing x with
  | nil => simp
  | cons a t ih =>
    have := ih (max x a)
    rcases max_choice x a with hm | hm <;>
      simp only [List.foldl_cons] <;>
      rcases (List.mem_cons).mp this with hh | hh <;>
      simp [hh, hm] at * <;> simp_all

theorem foldl_le_max (xs : List ℚ) (x : ℚ) : ∀ y ∈ x :: xs, y ≤ xs.foldl max x := by
  induction xs generalizing x with
  | nil => intro y hy; simp at hy; simp [hy]
  | cons a t ih =>
    intro y hy
    have hstep := ih (max x a)
    simp only [List.foldl_cons]
    rcases (List.mem_cons).mp hy with h1 | hy'
    · subst h1
      exact le_trans (le_max_left _ _) (hstep _ (List.mem_cons_self _ _))
    · rcases (List.mem_cons).mp hy' with h2 | h3
      · subst h2
        exact le_trans (le_max_right _ _) (hstep _ (List.mem_cons_self _ _))
      · exact hstep y (by simp [h3])

/-! ### Shape of the component list -/

theorem optPart_eq_toList (o : Option ℚ) (k : BenchKey) :
    optPart o k = (o.map (fun v => normalize v k)).toList := by
  cases o <;> rfl

theorem codingPart_eq_toList (s : Scores) :
    codingPart s = (match s.coding, s.codingLive with
      | some c, _ => some (normalize c .coding)
      | none, some cl => some (normalize cl .codingLive)
      | none, none => none).toList := by
  rcases s with ⟨co, cl, re, hle, ma, mb, ge, mu, el⟩
  cases co <;> cases cl <;> rfl

theorem specComponents_eq (m : Model) : specComponents m = scoreParts m.scores := by
  unfold specComponents scoreParts
  rw [codingPart_eq_toList, optPart_eq_toList, optPart_eq_toList, optPart_eq_toList]

theorem overallScore_setMultimodal (m : Model) (x : Option ℚ) :
    overallScore (setMultimodal m x) = overallScore m := rfl

theorem overallScore_setElo (m : Model) (x : Option ℚ) :
    overallScore (setElo m x) = overallScore m := rfl

/-! ### Pipeline membership facts -/

theorem keepModel_iff (st : FilterState) (m : Model) :
    keepModel st m = true ↔
      ((overallScore m : ℚ) ≥ st.minScore ∧ bestSpeed m ≥ st.minSpeedVal
        ∧ (st.requireVision = true → m.supportsImages = true)
        ∧ (st.requireOpenWeights = true → m.openWeights = true)) := by
  unfold keepModel
  simp only [Bool.and_eq_true, decide_eq_true_eq, Bool.or_eq_true, Bool.not_eq_true',
    and_assoc]
  constructor
  · rintro ⟨h1, h2, h3, h4⟩
    refine ⟨h1, h2, ?_, ?_⟩
    · intro hv; rcases h3 with h | h
      · rw [hv] at h; cases h
      · exact h
    · intro hw; rcases h4 with h | h
      · rw [hw] at h; cases h
      · exact h
  · rintro ⟨h1, h2, h3, h4⟩
    refine ⟨h1, h2, ?_, ?_⟩
    · cases hv : st.requireVision
      · exact Or.inl rfl
      · exact Or.inr (h3 hv)
    · cases hw : st.requireOpenWeights
      · exact Or.inl rfl
      · exact Or.inr (h4 hw)

theorem mem_filtered {st : FilterState} {l : List Model} {a : Model} :
    a ∈ filtered st l ↔ a ∈ l ∧ keepModel st a = true :=
  List.mem_filter

theorem sorted_perm (lc : String → String → Int) (st : SortState) (l : List Model) :
    (sorted lc st l).Perm l := by
  rcases st with ⟨sc, asc⟩
  cases sc <;> exact List.mergeSort_perm _ _

theorem mem_sorted {lc : String → String → Int} {st : SortState} {l : List Model}
    {a : Model} : a ∈ sorted lc st l ↔ a ∈ l :=
  (sorted_perm lc st l).mem_iff

theorem searched_sublist (q : String) (l : List Model) : (searched q l).Sublist l := by
  unfold searched
  split
  · exact List.Sublist.refl l
  · exact List.filter_sublist l

theorem mem_searched {q : String} {l : List Model} {a : Model} :
    a ∈ searched q l ↔ a ∈ l ∧ (q = "" ∨ matchesSearch q a = true) := by
  unfold searched
  split
  · rename_i h
    simp [h]
  · rename_i h
    simp only [List.mem_filter]
    constructor
    · rintro ⟨h1, h2⟩; exact ⟨h1, Or.inr h2⟩
    · rintro ⟨h1, h2 | h2⟩
      · exact absurd h2 h
      · exact ⟨h1, h2⟩

/-! ### Two-element merge sort -/

theorem mergeSort_pair {α : Type} (le : α → α → Bool) (a b : α) :
    [a, b].mergeSort le = if le a b then [a, b] else [b, a] := by
  rw [List.mergeSort]
  have h1 : (List.splitInTwo ⟨[a, b], rfl⟩).1.1 = [a] := by
    simp [List.splitInTwo]
  have h2 : (List.splitInTwo ⟨[a, b], rfl⟩).2.1 = [b] := by
    simp [List.splitInTwo]
  rw [h1, h2, List.mergeSort_singleton, List.mergeSort_singleton]
  rw [List.cons_merge_cons]
  split
  · simp [List.merge]
  · simp [List.merge]

/-! ### The claims -/

/-- C1: for every Model (whose required `scores.reasoning` field is present by
the `Scores` type), `overallScore` is defined and equals the round of 100
times the unweighted arithmetic mean of the included normalized components —
always `reasoning`; `general`, `math`, `reasoningHle` exactly when present; at
most one coding component with `coding` preferred over `codingLive`; never
`multimodal` or `elo` (changing those fields never changes the result).  The
component list is never empty and the result is an integer in [0, 100]. -/
theorem claim_C1 (m : Model) (x y : Option ℚ) :
    overallScore m = jsRound (100 * ((specComponents m).sum / ((specComponents m).length : ℚ)))
      ∧ specComponents m ≠ []
      ∧ 0 ≤ overallScore m ∧ overallScore m ≤ 100
      ∧ overallScore (setMultimodal m x) = overallScore m
      ∧ overallScore (setElo m y) = overallScore m := by
  refine ⟨?_, ?_, overallScore_nonneg m, overallScore_le_100 m,
    overallScore_setMultimodal m x, overallScore_setElo m y⟩
  · unfold overallScore
    rw [specComponents_eq]
    congr 1
    ring
  · rw [specComponents_eq]
    exact scoreParts_ne_nil _

/-- C2: when `coding` is present, `overallScore` ignores `codingLive`
entirely — two models differing only in the value of a present `codingLive`
get the same score (the two coding benchmarks are never averaged). -/
theorem claim_C2 (m : Model) (v w : ℚ)
    (hc : m.scores.coding.isSome = true) (hl : m.scores.codingLive.isSome = true) :
    overallScore (setCodingLive m (some v)) = overallScore (setCodingLive m (some w)) := by
  rcases m with ⟨i, nm, lb, si, ow, rd, s, ps⟩
  rcases s with ⟨co, cl, re, hle, ma, mb, ge, mu, el⟩
  simp only [Option.isSome_iff_exists] at hc
  obtain ⟨c, hc'⟩ := hc
  subst hc'
  rfl

/-- Closed instance of C2 on the catalog entry gpt-4.1, which carries both
coding benchmarks. -/
theorem claim_C2_witness :
    gpt41.scores.coding.isSome = true ∧ gpt41.scores.codingLive.isSome = true
      ∧ overallScore (setCodingLive gpt41 (some 1)) = overallScore (setCodingLive gpt41 (some 2)) :=
  ⟨rfl, rfl, claim_C2 gpt41 1 2 rfl rfl⟩

/-- C3: for every goalposts-table key (with the tabulated floors and
ceilings) and every raw input, `normalize` equals the spec clamp
`clamp((raw - floor)/(ceiling - floor), 0, 1)` and always lies in [0, 1],
clamped rather than extrapolated. -/
theorem claim_C3 (k : BenchKey) (raw : ℚ) :
    normalize raw k
        = min 1 (max 0 ((raw - (GOALPOSTS k).floor) / ((GOALPOSTS k).ceiling - (GOALPOSTS k).floor)))
      ∧ 0 ≤ normalize raw k ∧ normalize raw k ≤ 1
      ∧ GOALPOSTS .coding = ⟨0, 80⟩ ∧ GOALPOSTS .codingLive = ⟨0, 80⟩
      ∧ GOALPOSTS .reasoning = ⟨25, 100⟩ ∧ GOALPOSTS .reasoningHle = ⟨0, 100⟩
      ∧ GOALPOSTS .math = ⟨0, 100⟩ ∧ GOALPOSTS .general = ⟨10, 100⟩ := by
  refine ⟨?_, normalize_nonneg raw k, normalize_le_one raw k, rfl, rfl, rfl, rfl, rfl, rfl⟩
  unfold normalize
  rw [max_min_distrib_left, max_eq_right zero_le_one]

/-- C4: `blendedCost` is exactly `(costPer1MInput × 3 + costPer1MOutput) / 4`;
on a model with a non-empty provider list, `bestCost` is the minimum blended
cost, `bestSpeed` the maximum `tokensPerSecond`, and `costRange` /
`speedRange` return the (minimum, maximum) pairs over the same providers. -/
theorem claim_C4 (p : ModelProvider) (m : Model) :
    blendedCost p = (p.costPer1MInput * 3 + p.costPer1MOutput) / 4
      ∧ (m.providers ≠ [] →
          IsMinOf (bestCost m) (m.providers.map blendedCost)
          ∧ IsMaxOf (bestSpeed m) (m.providers.map (fun q => q.tokensPerSecond))
          ∧ (costRange m).1 = bestCost m
          ∧ IsMaxOf (costRange m).2 (m.providers.map blendedCost)
          ∧ (speedRange m).2 = bestSpeed m
          ∧ IsMinOf (speedRange m).1 (m.providers.map (fun q => q.tokensPerSecond))) := by
  refine ⟨rfl, fun h => ?_⟩
  obtain ⟨q0, qs, hq⟩ := List.exists_cons_of_ne_nil h
  unfold bestCost bestSpeed costRange speedRange IsMinOf IsMaxOf
  simp only [hq, List.map_cons]
  exact ⟨⟨foldl_min_mem _ _, foldl_min_le _ _⟩,
    ⟨foldl_max_mem _ _, foldl_le_max _ _⟩,
    trivial,
    ⟨foldl_max_mem _ _, foldl_le_max _ _⟩,
    trivial,
    ⟨foldl_min_mem _ _, foldl_min_le _ _⟩⟩

/-- Closed instance of C4 on the catalog entry gpt-4o. -/
theorem claim_C4_witness :
    gpt4o.providers ≠ []
      ∧ IsMinOf (bestCost gpt4o) (gpt4o.providers.map blendedCost)
      ∧ IsMaxOf (bestSpeed gpt4o) (gpt4o.providers.map (fun q => q.tokensPerSecond)) := by
  have h : gpt4o.providers ≠ [] := by simp [gpt4o]
  have hc := (claim_C4 ⟨"", 0, 0, none, 0⟩ gpt4o).2 h
  exact ⟨h, hc.1, hc.2.1⟩

/-- C5: the filter stage is a pure conjunction: the displayed list holds
exactly the catalog models passing the min-score, min-speed, vision,
open-weights and free-text-search predicates; with every criterion at its
always-true setting (zero thresholds, flags off, empty query) the catalog is
returned unchanged in membership. -/
theorem claim_C5 (lc : String → String → Int) (st : FilterState) (sst : SortState)
    (q : String) (catalog : List Model) (m : Model) :
    (m ∈ displayed lc st sst q catalog ↔
      m ∈ catalog
        ∧ (overallScore m : ℚ) ≥ st.minScore
        ∧ bestSpeed m ≥ st.minSpeedVal
        ∧ (st.requireVision = true → m.supportsImages = true)
        ∧ (st.requireOpenWeights = true → m.openWeights = true)
        ∧ (q = "" ∨ strIncludes m.name.toLower q.toLower = true
            ∨ strIncludes (labName m).toLower q.toLower = true))
    ∧ ((∀ x ∈ catalog, (0:ℚ) ≤ bestSpeed x) →
        (displayed lc ⟨0, 0, false, false⟩ sst "" catalog).Perm catalog) := by
  constructor
  · unfold displayed
    rw [mem_searched, mem_sorted, mem_filtered, keepModel_iff]
    unfold matchesSearch
    simp only [Bool.or_eq_true]
    tauto
  · intro h
    unfold displayed
    rw [show searched "" (sorted lc sst (filtered ⟨0, 0, false, false⟩ catalog))
          = sorted lc sst (filtered ⟨0, 0, false, false⟩ catalog) from rfl]
    refine (sorted_perm _ _ _).trans ?_
    have hfull : filtered ⟨0, 0, false, false⟩ catalog = catalog := by
      unfold filtered
      rw [List.filter_eq_self]
      intro a ha
      rw [keepModel_iff]
      refine ⟨?_, h a ha, ?_, ?_⟩
      · show (overallScore a : ℚ) ≥ 0
        exact_mod_cast overallScore_nonneg a
      · intro hh; cases hh
      · intro hh; cases hh
    rw [hfull]

/-- Closed instance of C5: the always-true criteria return the whole real
catalog, up to the default reordering. -/
theorem claim_C5_witness :
    (∀ x ∈ models, (0:ℚ) ≤ bestSpeed x)
      ∧ (displayed lcZero ⟨0, 0, false, false⟩ ⟨none, false⟩ "" models).Perm models :=
  ⟨by decide,
   (claim_C5 lcZero ⟨0, 0, false, false⟩ ⟨none, false⟩ "" models gpt4o).2 (by decide)⟩

/-- C6 (amended): the page filter state holds only the min-score, min-speed,
vision and open-weights criteria; there is no maximum-cost criterion and no
provider-selection criterion, so the filter verdict is unchanged under any
replacement of the provider list of a model (arbitrary costs and ids)
that preserves the multiset of `tokensPerSecond` values in order. -/
theorem claim_C6 (st : FilterState) (m : Model) (ps : List ModelProvider)
    (h : ps.map (fun p => p.tokensPerSecond) = m.providers.map (fun p => p.tokensPerSecond)) :
    keepModel st (setProviders m ps) = keepModel st m := by
  have hbs : bestSpeed (setProviders m ps) = bestSpeed m := by
    show (match ps.map (fun p => p.tokensPerSecond) with
          | [] => (0:ℚ)
          | s :: ss => ss.foldl max s) = bestSpeed m
    rw [h]
    rfl
  unfold keepModel
  rw [hbs]
  rfl

/-- Closed refutation input for C6: with all source filter criteria at pass
settings, a model whose best cost is one million dollars and whose only
provider id matches nothing in the provider table is still kept, so the
source filter enforces no cost bound and no provider selection. -/
theorem claim_C6_counterexample :
    keepModel ⟨0, 0, false, false⟩ expensiveModel = true
      ∧ (1000000 : ℚ) ≤ bestCost expensiveModel
      ∧ expensiveModel.providers.all (fun p => p.providerId != "openai") = true := by
  refine ⟨?_, ?_, by decide⟩
  · rw [keepModel_iff]
    refine ⟨?_, ?_, ?_, ?_⟩
    · show (overallScore expensiveModel : ℚ) ≥ 0
      exact_mod_cast overallScore_nonneg expensiveModel
    · rw [show bestSpeed expensiveModel = 50 from rfl]
      norm_num
    · intro hh; cases hh
    · intro hh; cases hh
  · rw [show bestCost expensiveModel = (1000000 * 3 + 1000000) / 4 from rfl]
    norm_num

/-- Closed instance of the amended C6: replacing the providers of gpt-4o with
different ids and costs but the same speeds leaves the filter verdict
unchanged. -/
theorem claim_C6_witness :
    ([⟨"other", 99, 99, none, 134⟩, ⟨"different", 1, 1, none, 170⟩] : List ModelProvider).map
        (fun p => p.tokensPerSecond) = gpt4o.providers.map (fun p => p.tokensPerSecond)
      ∧ keepModel ⟨70, 0, false, false⟩
          (setProviders gpt4o [⟨"other", 99, 99, none, 134⟩, ⟨"different", 1, 1, none, 170⟩])
          = keepModel ⟨70, 0, false, false⟩ gpt4o :=
  ⟨by decide, claim_C6 ⟨70, 0, false, false⟩ gpt4o _ (by decide)⟩

theorem jsRound_of_bounds {q : ℚ} {z : ℤ} (h1 : (z : ℚ) ≤ q + 1 / 2)
    (h2 : q + 1 / 2 < z + 1) : jsRound q = z := by
  unfold jsRound
  exact Int.floor_eq_iff.mpr ⟨h1, h2⟩

theorem overallScore_sortDemoA : overallScore sortDemoA = 0 := by
  unfold overallScore
  rw [show scoreParts sortDemoA.scores = [normalize 25 .reasoning] from rfl]
  have hn : normalize 25 .reasoning = 0 := by
    unfold normalize
    norm_num [GOALPOSTS]
  rw [hn]
  apply jsRound_of_bounds <;> norm_num

theorem overallScore_sortDemoB : overallScore sortDemoB = 100 := by
  unfold overallScore
  rw [show scoreParts sortDemoB.scores = [normalize 100 .reasoning] from rfl]
  have hn : normalize 100 .reasoning = 1 := by
    unfold normalize
    norm_num [GOALPOSTS]
  rw [hn]
  apply jsRound_of_bounds <;> norm_num

theorem sorted_demo_default :
    sorted lcZero ⟨none, false⟩ [sortDemoA, sortDemoB] = [sortDemoB, sortDemoA] := by
  show [sortDemoA, sortDemoB].mergeSort
      (fun a b => decide ((overallScore b - overallScore a : ℤ) ≤ 0)) = [sortDemoB, sortDemoA]
  rw [mergeSort_pair]
  rw [overallScore_sortDemoA, overallScore_sortDemoB]
  norm_num

theorem sorted_demo_costAsc :
    sorted lcZero ⟨some .cost, true⟩ [sortDemoA, sortDemoB] = [sortDemoA, sortDemoB] := by
  show [sortDemoA, sortDemoB].mergeSort
      (fun a b => decide (sortCmp lcZero .cost a b ≤ 0)) = [sortDemoA, sortDemoB]
  rw [mergeSort_pair]
  have hA : bestCost sortDemoA = 1 := by
    rw [show bestCost sortDemoA = (1 * 3 + 1) / 4 from rfl]
    norm_num
  have hB : bestCost sortDemoB = 5 := by
    rw [show bestCost sortDemoB = (5 * 3 + 5) / 4 from rfl]
    norm_num
  simp only [sortCmp, hA, hB]
  norm_num

/-- Closed refutation input for C7: starting from the no-explicit-sort state
(list shown descending by score, B before A), selecting the cost column twice
leaves the list ascending by cost (A before B), not in its original order;
the original order returns only with the third selection. -/
theorem claim_C7_counterexample :
    toggleSort .cost (toggleSort .cost ⟨none, false⟩) = ⟨some .cost, true⟩
      ∧ (sorted lcZero ⟨none, false⟩ [sortDemoA, sortDemoB]).map Model.name = ["B", "A"]
      ∧ (sorted lcZero ⟨some .cost, true⟩ [sortDemoA, sortDemoB]).map Model.name = ["A", "B"] := by
  refine ⟨by decide, ?_, ?_⟩
  · rw [sorted_demo_default]; rfl
  · rw [sorted_demo_costAsc]; rfl

/-- C7 (amended): selecting a column not currently active sorts it descending;
a second selection flips to ascending; a third returns to the no-explicit-sort
state.  Starting from no explicit sort, three selections of the same column
restore the original order (two do not, see the counterexample), and whenever
no explicit sort is active the list is ordered descending by `overallScore`. -/
theorem claim_C7 (c : SortCol) (st : SortState) (lc : String → String → Int)
    (l : List Model) :
    (st.sortCol ≠ some c →
        toggleSort c st = ⟨some c, false⟩
        ∧ toggleSort c (toggleSort c st) = ⟨some c, true⟩
        ∧ toggleSort c (toggleSort c (toggleSort c st)) = ⟨none, true⟩)
    ∧ (st.sortCol = none →
        sorted lc (toggleSort c (toggleSort c (toggleSort c st))) l = sorted lc st l
        ∧ (sorted lc st l).Pairwise (fun a b => overallScore b ≤ overallScore a)) := by
  have h2 : toggleSort c ⟨some c, false⟩ = ⟨some c, true⟩ := by
    simp [toggleSort]
  have h3 : toggleSort c ⟨some c, true⟩ = ⟨none, true⟩ := by
    simp [toggleSort]
  constructor
  · intro h
    have h1 : toggleSort c st = ⟨some c, false⟩ := by
      unfold toggleSort
      rw [if_neg h]
    exact ⟨h1, by rw [h1, h2], by rw [h1, h2, h3]⟩
  · rcases st with ⟨sc, asc⟩
    intro h
    simp only at h
    subst h
    constructor
    · have h1 : toggleSort c ⟨none, asc⟩ = ⟨some c, false⟩ := by
        simp [toggleSort]
      rw [h1, h2, h3]
      rfl
    · show (l.mergeSort
          (fun a b => decide ((overallScore b - overallScore a : ℤ) ≤ 0))).Pairwise
        (fun a b => overallScore b ≤ overallScore a)
      refine List.Pairwise.imp ?_ (List.sorted_mergeSort ?_ ?_ l)
      · intro a b hab
        simpa using of_decide_eq_true hab
      · intro a b x hab hbx
        simp only [decide_eq_true_eq] at *
        omega
      · intro a b
        simp only [Bool.or_eq_true, decide_eq_true_eq]
        omega

/-- Closed instance of the amended C7: the three-selection cycle on the cost
column from the no-sort state, and the default descending-by-score order. -/
theorem claim_C7_witness :
    toggleSort .cost (toggleSort .cost (toggleSort .cost ⟨none, false⟩)) = ⟨none, true⟩
      ∧ (sorted lcZero ⟨none, false⟩ [sortDemoA, sortDemoB]).Pairwise
          (fun a b => overallScore b ≤ overallScore a) :=
  ⟨((claim_C7 .cost ⟨none, false⟩ lcZero [sortDemoA, sortDemoB]).1 (by decide)).2.2,
   ((claim_C7 .cost ⟨none, false⟩ lcZero [sortDemoA, sortDemoB]).2 rfl).2⟩

/-- C8: increasing any single present raw benchmark score used by the
composite (reasoning, coding, codingLive, math, general, reasoningHle),
holding every other field fixed, never decreases `overallScore`. -/
theorem claim_C8 (m : Model) (v w : ℚ) (h : v ≤ w) :
    overallScore (setReasoning m v) ≤ overallScore (setReasoning m w)
      ∧ overallScore (setCoding m (some v)) ≤ overallScore (setCoding m (some w))
      ∧ overallScore (setCodingLive m (some v)) ≤ overallScore (setCodingLive m (some w))
      ∧ overallScore (setMath m (some v)) ≤ overallScore (setMath m (some w))
      ∧ overallScore (setGeneral m (some v)) ≤ overallScore (setGeneral m (some w))
      ∧ overallScore (setReasoningHle m (some v)) ≤ overallScore (setReasoningHle m (some w)) :=
  ⟨overallScore_le_of_forall2 (forall2_scoreParts_reasoning m.scores h),
   overallScore_le_of_forall2 (forall2_scoreParts_coding m.scores h),
   overallScore_le_of_forall2 (forall2_scoreParts_codingLive m.scores h),
   overallScore_le_of_forall2 (forall2_scoreParts_math m.scores h),
   overallScore_le_of_forall2 (forall2_scoreParts_general m.scores h),
   overallScore_le_of_forall2 (forall2_scoreParts_reasoningHle m.scores h)⟩

/-- Closed instance of C8 on the catalog entry gpt-4o. -/
theorem claim_C8_witness :
    (1 : ℚ) ≤ 2 ∧ overallScore (setReasoning gpt4o 1) ≤ overallScore (setReasoning gpt4o 2) :=
  ⟨by decide, (claim_C8 gpt4o 1 2 (by decide)).1⟩

/-- C9: `getLab` and `getProvider` return an explicit absent value (`none`)
on an id with no table entry, never an exception; on an id that does match a
table entry they return a matching entry (so the result is `none` exactly
when nothing matches). -/
theorem claim_C9 (id : String) :
    ((∀ l ∈ labs, l.id ≠ id) → getLab id = none)
      ∧ (∀ l : Lab, getLab id = some l → l ∈ labs ∧ l.id = id)
      ∧ ((∃ l ∈ labs, l.id = id) → ∃ l : Lab, getLab id = some l ∧ l ∈ labs ∧ l.id = id)
      ∧ ((∀ p ∈ providers, p.id ≠ id) → getProvider id = none)
      ∧ (∀ p : Provider, getProvider id = some p → p ∈ providers ∧ p.id = id)
      ∧ ((∃ p ∈ providers, p.id = id) →
          ∃ p : Provider, getProvider id = some p ∧ p ∈ providers ∧ p.id = id) := by
  refine ⟨?_, ?_, ?_, ?_, ?_, ?_⟩
  · intro h
    unfold getLab
    rw [List.find?_eq_none]
    intro x hx
    simp only [beq_iff_eq]
    exact h x hx
  · intro l hl
    unfold getLab at hl
    exact ⟨List.mem_of_find?_eq_some hl, by simpa using List.find?_some hl⟩
  · intro h
    obtain ⟨l, hl, hid⟩ := h
    have hs : (labs.find? (fun x => x.id == id)).isSome := by
      rw [List.find?_isSome]
      exact ⟨l, hl, by simpa using hid⟩
    obtain ⟨l', hl'⟩ := Option.isSome_iff_exists.mp hs
    refine ⟨l', ?_, List.mem_of_find?_eq_some hl', by simpa using List.find?_some hl'⟩
    unfold getLab
    exact hl'
  · intro h
    unfold getProvider
    rw [List.find?_eq_none]
    intro x hx
    simp only [beq_iff_eq]
    exact h x hx
  · intro p hp
    unfold getProvider at hp
    exact ⟨List.mem_of_find?_eq_some hp, by simpa using List.find?_some hp⟩
  · intro h
    obtain ⟨p, hp, hid⟩ := h
    have hs : (providers.find? (fun x => x.id == id)).isSome := by
      rw [List.find?_isSome]
      exact ⟨p, hp, by simpa using hid⟩
    obtain ⟨p', hp'⟩ := Option.isSome_iff_exists.mp hs
    refine ⟨p', ?_, List.mem_of_find?_eq_some hp', by simpa using List.find?_some hp'⟩
    unfold getProvider
    exact hp'

/-- Closed instance of C9: a missing id yields `none` in both tables, while
the matching ids xai and openai resolve to matching table entries. -/
theorem claim_C9_witness :
    getLab "no-such-id" = none
      ∧ getProvider "no-such-id" = none
      ∧ (∃ l : Lab, getLab "xai" = some l ∧ l ∈ labs ∧ l.id = "xai")
      ∧ (∃ p : Provider, getProvider "openai" = some p ∧ p ∈ providers ∧ p.id = "openai") :=
  ⟨(claim_C9 "no-such-id").1 (by decide),
   (claim_C9 "no-such-id").2.2.2.1 (by decide),
   (claim_C9 "xai").2.2.1 (by decide),
   (claim_C9 "openai").2.2.2.2.2 (by decide)⟩

/-- C10: the free-text search stage runs after sorting and only removes
elements: for every query and every sort state, the final searched list is a
subsequence of the sorted list, preserving the relative order the sort stage
produced. -/
theorem claim_C10 (lc : String → String → Int) (q : String) (st : FilterState)
    (sst : SortState) (catalog : List Model) :
    (displayed lc st sst q catalog).Sublist (sorted lc sst (filtered st catalog)) := by
  unfold displayed
  exact searched_sublist q _

end ModelFinder
